import Mathlib

/-!
Verification of the ESP32 BLE central client (`esp32-ble-cliente-central`).

The Python modules `adv_parser.py`, `ble_client.py`, `ble_handlers.py` and
`main.py` are shallowly embedded below: byte buffers and strings become
`List Nat` (byte / code-point values), Python `None`-able fields become
`Option`, the client object becomes an explicit structure, and every stack
command the code issues (`gap_connect`, `gattc_discover_*`, radio reset, …)
is recorded in an explicit action list so that "issues a command" is
observable.  Stack calls that can raise in MicroPython are modelled by a
boolean parameter selecting the `try` or the `except` branch, mirroring the
source's exception handlers.
-/

namespace ESP32BLE

/-! ## Advertisement parser (`adv_parser.py`) -/

/-- `bluetooth.UUID` values: either a 16-bit integer UUID or a 128-bit UUID
built from 16 raw bytes.  Equality between the two forms is always false,
as for the MicroPython objects. -/
inductive BlueUUID where
  | u16 (v : Nat)
  | u128 (bytes : List Nat)
deriving DecidableEq, Repr

/-- Python slice `buf[a:b]` on a byte buffer (`a ≤ b` clamped at the end). -/
def pySlice (buf : List Nat) (a b : Nat) : List Nat :=
  (buf.drop a).take (b - a)

/-- A UTF-8 continuation byte (`0x80 ≤ b ≤ 0xBF`). -/
def contByte (b : Nat) : Bool := 0x80 ≤ b && b ≤ 0xBF

/-- Strict UTF-8 decoding of a byte list into its code points, modelling
MicroPython `bytes.decode('utf-8')`: `none` when the bytes are not valid
UTF-8 (in the source this raises and is caught by the surrounding
`except`). -/
def utf8Decode : List Nat → Option (List Nat)
  | [] => some []
  | b :: rest =>
    if b ≤ 0x7F then
      (utf8Decode rest).map (fun cs => b :: cs)
    else if 0xC2 ≤ b && b ≤ 0xDF then
      match rest with
      | c1 :: r =>
        if contByte c1 then
          (utf8Decode r).map (fun cs => ((b - 0xC0) * 64 + (c1 - 0x80)) :: cs)
        else none
      | [] => none
    else if 0xE0 ≤ b && b ≤ 0xEF then
      match rest with
      | c1 :: c2 :: r =>
        if (if b = 0xE0 then 0xA0 ≤ c1 && c1 ≤ 0xBF
            else if b = 0xED then 0x80 ≤ c1 && c1 ≤ 0x9F
            else contByte c1) && contByte c2 then
          (utf8Decode r).map
            (fun cs => ((b - 0xE0) * 4096 + (c1 - 0x80) * 64 + (c2 - 0x80)) :: cs)
        else none
      | _ => none
    else if 0xF0 ≤ b && b ≤ 0xF4 then
      match rest with
      | c1 :: c2 :: c3 :: r =>
        if (if b = 0xF0 then 0x90 ≤ c1 && c1 ≤ 0xBF
            else if b = 0xF4 then 0x80 ≤ c1 && c1 ≤ 0x8F
            else contByte c1) && contByte c2 && contByte c3 then
          (utf8Decode r).map
            (fun cs => ((b - 0xF0) * 262144 + (c1 - 0x80) * 4096
                        + (c2 - 0x80) * 64 + (c3 - 0x80)) :: cs)
        else none
      | _ => none
    else none

/-- Loop body of `AdvertisementParser.extract_device_name`, starting at
buffer offset `i`.  Mirrors the `while i < adv_len - 1` loop: read the
one-byte length, stop on a zero length or a record that would overrun the
buffer (`i + length >= adv_len`), return the decoded bytes of the first
`0x08`/`0x09` record whose payload decodes as UTF-8, otherwise advance by
`1 + length`.  A failed decode falls through to the next record, as the
inner `except: pass` does. -/
def extractNameFrom (buf : List Nat) (i : Nat) : Option (List Nat) :=
  if _h1 : i + 1 < buf.length then
    let length := buf.getD i 0
    if _h2 : length = 0 ∨ buf.length ≤ i + length then none
    else
      let dataType := buf.getD (i + 1) 0
      if dataType = 0x08 ∨ dataType = 0x09 then
        match utf8Decode (pySlice buf (i + 2) (i + 1 + length)) with
        | some name => some name
        | none => extractNameFrom buf (i + 1 + length)
      else extractNameFrom buf (i + 1 + length)
  else none
termination_by buf.length - i
decreasing_by
  all_goals
    simp only [not_or, not_le] at _h2
    omega

/-- `AdvertisementParser.extract_device_name`. -/
def extract_device_name (buf : List Nat) : Option (List Nat) :=
  extractNameFrom buf 0

/-- 16-bit service UUIDs from a record payload: consecutive little-endian
pairs, a trailing unpaired byte dropped (the `j + 1 < len` guard). -/
def parseUuid16s : List Nat → List BlueUUID
  | a :: b :: rest => BlueUUID.u16 (a + b * 256) :: parseUuid16s rest
  | _ => []

/-- 128-bit service UUIDs from a record payload: consecutive 16-byte
chunks, a shorter trailing chunk dropped (the `j + 15 < len` guard). -/
def parseUuid128s (l : List Nat) : List BlueUUID :=
  if 16 ≤ l.length then
    BlueUUID.u128 (l.take 16) :: parseUuid128s (l.drop 16)
  else []
termination_by l.length
decreasing_by
  simp only [List.length_drop]
  omega

/-- Loop body of `AdvertisementParser.extract_service_uuids`, starting at
offset `i`; same walk and stop conditions as the name extractor, collecting
UUIDs of records with type `0x02`/`0x03` (16-bit) and `0x06`/`0x07`
(128-bit) over the whole buffer. -/
def extractUuidsFrom (buf : List Nat) (i : Nat) : List BlueUUID :=
  if _h1 : i + 1 < buf.length then
    let length := buf.getD i 0
    if _h2 : length = 0 ∨ buf.length ≤ i + length then []
    else
      let dataType := buf.getD (i + 1) 0
      let here :=
        if dataType = 0x02 ∨ dataType = 0x03 then
          parseUuid16s (pySlice buf (i + 2) (i + 1 + length))
        else if dataType = 0x06 ∨ dataType = 0x07 then
          parseUuid128s (pySlice buf (i + 2) (i + 1 + length))
        else []
      here ++ extractUuidsFrom buf (i + 1 + length)
  else []
termination_by buf.length - i
decreasing_by
  all_goals
    simp only [not_or, not_le] at _h2
    omega

/-- `AdvertisementParser.extract_service_uuids`. -/
def extract_service_uuids (buf : List Nat) : List BlueUUID :=
  extractUuidsFrom buf 0

/-! ## Target matcher (`adv_parser.py`, `is_target_device`) -/

/-- Python truthiness of an optional string: `None` and the empty string
are falsy. -/
def strTruthy : Option (List Nat) → Bool
  | none => false
  | some s => !s.isEmpty

/-- ASCII lower-casing of one byte, modelling `str.lower()` on the ASCII
strings (MAC addresses, device names) this program handles. -/
def asciiLower (c : Nat) : Nat :=
  if 65 ≤ c ∧ c ≤ 90 then c + 32 else c

/-- `s.lower()` on a string given as a byte list. -/
def strLower (s : List Nat) : List Nat := s.map asciiLower

/-- `AdvertisementParser.is_target_device`: three prioritised criteria,
first satisfied wins.  `target_name.lower() in device_name.lower()` is
Python substring containment, `target_service_uuid in service_uuids` is
list membership (false when the target UUID is `None`, since
`None == UUID(...)` is false). -/
def is_target_device (addr_str : List Nat) (device_name : Option (List Nat))
    (service_uuids : List BlueUUID) (target_mac : Option (List Nat))
    (target_name : Option (List Nat)) (target_service_uuid : Option BlueUUID) :
    Bool :=
  if strTruthy target_mac
      && (strLower addr_str == strLower (target_mac.getD [])) then
    true
  else if strTruthy target_name && strTruthy device_name
      && decide (strLower (target_name.getD [])
                  <:+: strLower (device_name.getD [])) then
    true
  else if !service_uuids.isEmpty
      && (match target_service_uuid with
          | some u => service_uuids.contains u
          | none => false) then
    true
  else false

/-- The matcher as the specification words it: true exactly when at least
one configured criterion is satisfied (address configured and equal
case-insensitively; name configured, candidate name present, and a
case-insensitive substring; target UUID configured and a member of the
candidate's UUID list).  "Configured" is Python truthiness: `None` and the
empty string are unconfigured. -/
def targetMatchSpec (addr_str : List Nat) (device_name : Option (List Nat))
    (service_uuids : List BlueUUID) (target_mac : Option (List Nat))
    (target_name : Option (List Nat)) (target_service_uuid : Option BlueUUID) :
    Bool :=
  (strTruthy target_mac && (strLower addr_str == strLower (target_mac.getD [])))
  || (strTruthy target_name && strTruthy device_name
      && decide (strLower (target_name.getD [])
                  <:+: strLower (device_name.getD [])))
  || (match target_service_uuid with
      | some u => service_uuids.contains u
      | none => false)

/-! ## Connection state machine (`ble_constants.py`, `state_machine.py`,
`ble_client.py`, `ble_handlers.py`) -/

def STATE_IDLE : Nat := 0
def STATE_SCANNING : Nat := 1
def STATE_CONNECTING : Nat := 2
def STATE_CONNECTED : Nat := 3
def STATE_DISCOVERING : Nat := 4
def STATE_READY : Nat := 5
def STATE_ERROR : Nat := 6
def STATE_RECONNECTING : Nat := 7

/-- The remembered target device (`self.target_device` dict); only the
fields the handlers read are kept. -/
structure TargetDevice where
  addr_type : Nat
  addr : List Nat
deriving DecidableEq, Repr

/-- Stack commands and recovery effects the client issues.  Constant UUID
arguments of the discovery commands are omitted (they are the fixed
`SENSOR_SERVICE_UUID` / `ANALOG_VALUE_CHAR_UUID`). -/
inductive StackAction where
  | gapConnect (addr_type : Nat) (addr : List Nat)
  | gattcDiscoverChars (conn : Option Nat) (startH endH : Nat)
  | gattcDiscoverDescs (conn : Option Nat) (startH endH : Nat)
  | radioOff
  | radioOn
  | attachIrq
  | forceGc
deriving DecidableEq, Repr

/-- The mutable fields of `BLESensorClient` (plus the two configuration
entries the handlers read, `auto_reconnect` and `max_retries`, inlined
from the config dict) and the `StateMachine` fields it owns.  The
real-time `state_timestamp` is not modelled; no claim mentions it. -/
structure Client where
  state : Nat
  previous_state : Nat
  conn_handle : Option Nat
  service_handles : Option (Nat × Nat)
  char_handle : Option Nat
  cccd_handle : Option Nat
  target_device : Option TargetDevice
  retry_count : Nat
  error_count : Nat
  auto_reconnect : Bool
  max_retries : Nat
  service_discovered : Bool
  char_discovered : Bool
  notifications_enabled : Bool
  stats_connections : Nat
  stats_disconnections : Nat
  stats_errors : Nat
deriving DecidableEq, Repr

/-- `StateMachine.change_state`: records the previous state and switches,
only when the state actually changes. -/
def change_state (c : Client) (new_state : Nat) : Client :=
  if new_state ≠ c.state then
    { c with previous_state := c.state, state := new_state }
  else c

/-- `BLESensorClient._reset_connection_state`. -/
def reset_connection_state (c : Client) : Client :=
  { c with service_handles := none, char_handle := none, cccd_handle := none,
           service_discovered := false, char_discovered := false,
           notifications_enabled := false }

/-- `BLESensorClient._start_connection`.  Returns the updated client and
the stack commands issued; `connectThrows` selects the `except` branch of
the `gap_connect` call (stack failure).  Note the unconditional
`self.retry_count = 0` before `gap_connect`. -/
def start_connection (connectThrows : Bool) (c : Client) :
    Client × List StackAction :=
  match c.target_device with
  | none => (c, [])
  | some d =>
    let c1 := change_state c STATE_CONNECTING
    let c2 := { c1 with retry_count := 0 }
    if connectThrows then (change_state c2 STATE_ERROR, [])
    else (c2, [StackAction.gapConnect d.addr_type d.addr])

/-- `BLEEventHandlers.handle_disconnect`: unconditionally clears the
connection handle, moves to Idle, counts the disconnection and resets the
discovery state; then, when auto-reconnect is on, the retry counter is
below `max_retries` and a target is remembered, increments the counter,
enters Reconnecting, sleeps (not modelled) and calls `_start_connection`. -/
def handle_disconnect (connectThrows : Bool) (c : Client) :
    Client × List StackAction :=
  let c1 := { c with conn_handle := none }
  let c2 := change_state c1 STATE_IDLE
  let c3 := { c2 with stats_disconnections := c2.stats_disconnections + 1 }
  let c4 := reset_connection_state c3
  if c4.auto_reconnect && decide (c4.retry_count < c4.max_retries)
      && c4.target_device.isSome then
    let c5 := { c4 with retry_count := c4.retry_count + 1 }
    let c6 := change_state c5 STATE_RECONNECTING
    start_connection connectThrows c6
  else (c4, [])

/-- `BLESensorClient._handle_service_done`: when a matching service was
recorded, issue characteristic discovery over its range (`discThrows`
selects the `except` branch, which moves to Error); otherwise move to
Error.  When `service_discovered` is set, `service_handles` is always set
too (both are assigned together in `_handle_service_result`), so the
`getD` default is never read. -/
def handle_service_done (discThrows : Bool) (c : Client) :
    Client × List StackAction :=
  if c.service_discovered then
    let (startH, endH) := c.service_handles.getD (0, 0)
    if discThrows then (change_state c STATE_ERROR, [])
    else (c, [StackAction.gattcDiscoverChars c.conn_handle startH endH])
  else (change_state c STATE_ERROR, [])

/-- `BLESensorClient._handle_characteristic_done`: when a matching
characteristic was recorded, issue descriptor discovery over
`[char_handle, char_handle + 2]` (`discThrows` selects the `except`
branch, which degrades to Ready); otherwise move to Error.  When
`char_discovered` is set, `char_handle` is always set too (both are
assigned together in `_handle_characteristic_result`). -/
def handle_characteristic_done (discThrows : Bool) (c : Client) :
    Client × List StackAction :=
  if c.char_discovered then
    let ch := c.char_handle.getD 0
    if discThrows then (change_state c STATE_READY, [])
    else (c, [StackAction.gattcDiscoverDescs c.conn_handle ch (ch + 2)])
  else (change_state c STATE_ERROR, [])

/-- `BLESensorClient._handle_descriptor_done`: when notifications were
never enabled, move to Ready. -/
def handle_descriptor_done (c : Client) : Client :=
  if !c.notifications_enabled then change_state c STATE_READY else c

/-- Outcome of `read_characteristic` / `write_characteristic`: either the
"not ready" rejection (prints and returns `False` without touching the
stack) or an attempted GATT operation on the stored handles. -/
inductive OpOutcome where
  | notReady
  | attempted (conn : Option Nat) (valueHandle : Nat)
deriving DecidableEq, Repr

/-- Python truthiness of an optional integer handle: `None` and `0` are
falsy. -/
def handleTruthy : Option Nat → Bool
  | none => false
  | some v => v ≠ 0

/-- `BLESensorClient.read_characteristic` guard and call: rejected as not
ready when `self.state_machine.state != STATE_READY or not
self.char_handle`; otherwise `gattc_read(self.conn_handle,
self.char_handle)` is attempted. -/
def read_characteristic (c : Client) : OpOutcome :=
  if c.state ≠ STATE_READY || !handleTruthy c.char_handle then
    OpOutcome.notReady
  else OpOutcome.attempted c.conn_handle (c.char_handle.getD 0)

/-- `write_characteristic` (from `main.py`, same guard shape as
`read_characteristic`): rejected when `self.state != STATE_READY or not
self.char_handle`; otherwise `gattc_write(self.conn_handle,
self.char_handle, data, 1)` is attempted. -/
def write_characteristic (c : Client) (_data : List Nat) : OpOutcome :=
  if c.state ≠ STATE_READY || !handleTruthy c.char_handle then
    OpOutcome.notReady
  else OpOutcome.attempted c.conn_handle (c.char_handle.getD 0)

/-- `BLESensorClient.is_ready`: state Ready, characteristic handle not
`None`, connection handle not `None`. -/
def is_ready (c : Client) : Bool :=
  c.state = STATE_READY && c.char_handle.isSome && c.conn_handle.isSome

/-- `BLESensorClient._handle_critical_error`, success path: deactivate and
reactivate the radio, reattach the IRQ callback, reset to Idle, zero the
error counter and force a memory reclamation pass. -/
def handle_critical_error (c : Client) : Client × List StackAction :=
  let c1 := change_state c STATE_IDLE
  let c2 := { c1 with error_count := 0 }
  (c2, [StackAction.radioOff, StackAction.radioOn, StackAction.attachIrq,
        StackAction.forceGc])

/-- The `except` path of `BLESensorClient.ble_irq`: a handler exception is
counted in `stats['errors']` and `error_count`, and once `error_count >
15` the critical-error reset runs. -/
def ble_irq_exception (c : Client) : Client × List StackAction :=
  let c1 := { c with stats_errors := c.stats_errors + 1,
                     error_count := c.error_count + 1 }
  if 15 < c1.error_count then handle_critical_error c1 else (c1, [])

/-- `n` consecutive handler exceptions, accumulating the recovery actions
performed. -/
def iterException : Nat → Client × List StackAction → Client × List StackAction
  | 0, p => p
  | n + 1, (c, as) =>
    let (c', as') := ble_irq_exception c
    iterException n (c', as ++ as')

/-! ## Concrete states used in the theorems -/

/-- The field values of a freshly constructed `BLESensorClient` with the
default configuration (`DEFAULT_CONFIG`: `auto_reconnect = True`,
`max_retries = 5`). -/
def initClient : Client :=
  { state := STATE_IDLE, previous_state := STATE_IDLE, conn_handle := none,
    service_handles := none, char_handle := none, cccd_handle := none,
    target_device := none, retry_count := 0, error_count := 0,
    auto_reconnect := true, max_retries := 5, service_discovered := false,
    char_discovered := false, notifications_enabled := false,
    stats_connections := 0, stats_disconnections := 0, stats_errors := 0 }

/-- A ready, connected client configured with `max_retries = 1` whose
target device is still remembered. -/
def retryOneClient : Client :=
  { initClient with state := STATE_READY, conn_handle := some 1,
                    target_device := some ⟨0, [170, 187, 204, 221, 238, 255]⟩,
                    max_retries := 1 }

/-- A ready client whose characteristic value handle is the GATT handle
value `0` and whose connection handle is set. -/
def zeroHandleClient : Client :=
  { initClient with state := STATE_READY, char_handle := some 0,
                    conn_handle := some 1 }

/-- A ready client with a known nonzero characteristic handle but no
connection handle. -/
def noConnClient : Client :=
  { initClient with state := STATE_READY, char_handle := some 5 }

/-! ## Helper lemmas: `change_state` only touches `state` and
`previous_state` -/

theorem change_state_state (c : Client) (s : Nat) : (change_state c s).state = s := by
  unfold change_state
  split
  · rfl
  · rename_i h
    simp at h
    exact h.symm

theorem change_state_conn_handle (c : Client) (s : Nat) :
    (change_state c s).conn_handle = c.conn_handle := by
  unfold change_state
  split <;> rfl

theorem change_state_service_handles (c : Client) (s : Nat) :
    (change_state c s).service_handles = c.service_handles := by
  unfold change_state
  split <;> rfl

theorem change_state_char_handle (c : Client) (s : Nat) :
    (change_state c s).char_handle = c.char_handle := by
  unfold change_state
  split <;> rfl

theorem change_state_cccd_handle (c : Client) (s : Nat) :
    (change_state c s).cccd_handle = c.cccd_handle := by
  unfold change_state
  split <;> rfl

theorem change_state_target_device (c : Client) (s : Nat) :
    (change_state c s).target_device = c.target_device := by
  unfold change_state
  split <;> rfl

theorem change_state_retry_count (c : Client) (s : Nat) :
    (change_state c s).retry_count = c.retry_count := by
  unfold change_state
  split <;> rfl

theorem change_state_error_count (c : Client) (s : Nat) :
    (change_state c s).error_count = c.error_count := by
  unfold change_state
  split <;> rfl

theorem change_state_auto_reconnect (c : Client) (s : Nat) :
    (change_state c s).auto_reconnect = c.auto_reconnect := by
  unfold change_state
  split <;> rfl

theorem change_state_max_retries (c : Client) (s : Nat) :
    (change_state c s).max_retries = c.max_retries := by
  unfold change_state
  split <;> rfl

theorem change_state_service_discovered (c : Client) (s : Nat) :
    (change_state c s).service_discovered = c.service_discovered := by
  unfold change_state
  split <;> rfl

theorem change_state_char_discovered (c : Client) (s : Nat) :
    (change_state c s).char_discovered = c.char_discovered := by
  unfold change_state
  split <;> rfl

theorem change_state_notifications_enabled (c : Client) (s : Nat) :
    (change_state c s).notifications_enabled = c.notifications_enabled := by
  unfold change_state
  split <;> rfl

theorem change_state_stats_connections (c : Client) (s : Nat) :
    (change_state c s).stats_connections = c.stats_connections := by
  unfold change_state
  split <;> rfl

theorem change_state_stats_disconnections (c : Client) (s : Nat) :
    (change_state c s).stats_disconnections = c.stats_disconnections := by
  unfold change_state
  split <;> rfl

theorem change_state_stats_errors (c : Client) (s : Nat) :
    (change_state c s).stats_errors = c.stats_errors := by
  unfold change_state
  split <;> rfl

/-! ## Claim theorems -/

/-- Claim C1 (code bug witness): with `max_retries = 1`, auto-reconnect
enabled and a target remembered, the second consecutive disconnection still
enters Reconnecting and re-issues `gap_connect`, because
`_start_connection` resets `retry_count` to `0` on every attempt; the
claimed behaviour (the `(max_retries+1)`-th disconnection leaves the
machine in Idle with no reconnection) does not hold.  The final state's
`previous_state = Reconnecting` shows the Reconnecting transition was
taken on the second disconnection as well. -/
theorem claim1_unbounded_reconnection :
    (handle_disconnect false retryOneClient).1.retry_count = 0 ∧
    (handle_disconnect false retryOneClient).2
      = [StackAction.gapConnect 0 [170, 187, 204, 221, 238, 255]] ∧
    (handle_disconnect false (handle_disconnect false retryOneClient).1).1.state
      = STATE_CONNECTING ∧
    (handle_disconnect false
        (handle_disconnect false retryOneClient).1).1.previous_state
      = STATE_RECONNECTING ∧
    (handle_disconnect false (handle_disconnect false retryOneClient).1).2
      = [StackAction.gapConnect 0 [170, 187, 204, 221, 238, 255]] ∧
    ¬ (handle_disconnect false (handle_disconnect false retryOneClient).1).1.state
      = STATE_IDLE := by
  decide

/-- Claim C2 (counterexample): with state Ready, a known nonzero
characteristic handle and no connection handle, `read_characteristic` and
`write_characteristic` are NOT rejected with the "not ready" signal — the
guard never consults the connection handle, so the GATT operation is
attempted on `conn_handle = None`. -/
theorem claim2_counterexample :
    ¬ read_characteristic noConnClient = OpOutcome.notReady ∧
    ¬ write_characteristic noConnClient [1] = OpOutcome.notReady ∧
    read_characteristic noConnClient = OpOutcome.attempted none 5 ∧
    write_characteristic noConnClient [1] = OpOutcome.attempted none 5 := by
  decide

/-- Claim C2 (amended): a read or write is rejected with "not ready"
exactly when the state is not Ready or the characteristic value handle is
falsy (`None` or `0`); the connection handle is not part of the guard, and
the write guard is identical to the read guard. -/
theorem claim2_amended (c : Client) (data : List Nat) :
    (read_characteristic c = OpOutcome.notReady
      ↔ ¬(c.state = STATE_READY ∧ handleTruthy c.char_handle = true))
    ∧ write_characteristic c data = read_characteristic c := by
  refine ⟨?_, rfl⟩
  by_cases hs : c.state = STATE_READY <;>
    by_cases hh : handleTruthy c.char_handle <;>
      simp [read_characteristic, hs, hh]

/-- Claim C3 (counterexample): on the 9-byte buffer
`02 01 06 04 09 'E' 'S' 'P' '0'`, `extract_device_name` does not return
"ESP0" (`[69, 83, 80, 48]`): the record's declared length `4` covers the
type byte plus three data bytes, so the final `'0'` lies outside the
record. -/
theorem claim3_counterexample :
    ¬ extract_device_name [0x02, 0x01, 0x06, 0x04, 0x09, 69, 83, 80, 48]
      = some [69, 83, 80, 48] := by
  simp only [extract_device_name]
  rw [extractNameFrom]
  norm_num
  rw [extractNameFrom]
  norm_num [pySlice]
  decide

/-- Claim C3 (amended): on that buffer `extract_device_name` returns
"ESP" (`[69, 83, 80]`) and `extract_service_uuids` returns the empty
list. -/
theorem claim3_amended :
    extract_device_name [0x02, 0x01, 0x06, 0x04, 0x09, 69, 83, 80, 48]
      = some [69, 83, 80] ∧
    extract_service_uuids [0x02, 0x01, 0x06, 0x04, 0x09, 69, 83, 80, 48]
      = [] := by
  constructor
  · simp only [extract_device_name]
    rw [extractNameFrom]
    norm_num
    rw [extractNameFrom]
    norm_num [pySlice]
    rfl
  · simp only [extract_service_uuids]
    rw [extractUuidsFrom]
    norm_num
    rw [extractUuidsFrom]
    norm_num
    rw [extractUuidsFrom]
    norm_num

/-- Claim C4: `is_target_device` returns true exactly when at least one
configured criterion is satisfied (`targetMatchSpec`, which spells out the
three criteria of the claim), and it returns false for every input when no
criterion is configured ("configured" being Python truthiness: `None` or
an empty string is unconfigured). -/
theorem claim4_target_matcher (addr_str : List Nat)
    (device_name : Option (List Nat)) (service_uuids : List BlueUUID)
    (target_mac : Option (List Nat)) (target_name : Option (List Nat))
    (target_service_uuid : Option BlueUUID) :
    is_target_device addr_str device_name service_uuids target_mac
        target_name target_service_uuid
      = targetMatchSpec addr_str device_name service_uuids target_mac
        target_name target_service_uuid ∧
    (strTruthy target_mac = false → strTruthy target_name = false →
      target_service_uuid = none →
      is_target_device addr_str device_name service_uuids target_mac
        target_name target_service_uuid = false) := by
  constructor
  · unfold is_target_device targetMatchSpec
    cases target_service_uuid with
    | none => split_ifs <;> simp_all
    | some u =>
      cases service_uuids with
      | nil => split_ifs <;> simp_all
      | cons a l => split_ifs <;> simp_all
  · intro h1 h2 h3
    simp [is_target_device, h1, h2, h3]

/-- Witness for C4 at a concrete input: with no criteria configured, a
candidate with address "a", name "b" and one advertised UUID does not
match. -/
theorem claim4_witness :
    is_target_device [97] (some [98]) [BlueUUID.u16 1] none none none
      = false :=
  (claim4_target_matcher [97] (some [98]) [BlueUUID.u16 1]
      none none none).2 rfl rfl rfl

/-- Claim C5: a service-discovery-done event with no matching service
recorded, and a characteristic-discovery-done event with no matching
characteristic recorded, each set the state to Error (whether or not the
follow-up discovery command would have thrown), and Error is not Ready. -/
theorem claim5_discovery_absent_error (c : Client) (t : Bool) :
    (c.service_discovered = false →
      (handle_service_done t c).1.state = STATE_ERROR) ∧
    (c.char_discovered = false →
      (handle_characteristic_done t c).1.state = STATE_ERROR) ∧
    STATE_ERROR ≠ STATE_READY := by
  refine ⟨?_, ?_, by decide⟩
  · intro h
    simp [handle_service_done, h, change_state_state]
  · intro h
    simp [handle_characteristic_done, h, change_state_state]

/-- Witness for C5 at the freshly initialised client (both discovery flags
false). -/
theorem claim5_witness :
    (handle_service_done false initClient).1.state = STATE_ERROR ∧
    (handle_characteristic_done false initClient).1.state = STATE_ERROR :=
  ⟨(claim5_discovery_absent_error initClient false).1 rfl,
   (claim5_discovery_absent_error initClient false).2.1 rfl⟩

/-- Claim C6: a descriptor-discovery-done event arriving while
notifications are not enabled sets the state to Ready and leaves the
notifications flag false. -/
theorem claim6_descriptor_done_ready (c : Client)
    (h : c.notifications_enabled = false) :
    (handle_descriptor_done c).state = STATE_READY ∧
    (handle_descriptor_done c).notifications_enabled = false := by
  simp [handle_descriptor_done, h, change_state_state,
        change_state_notifications_enabled]

/-- Witness for C6 at the freshly initialised client. -/
theorem claim6_witness :
    (handle_descriptor_done initClient).state = STATE_READY ∧
    (handle_descriptor_done initClient).notifications_enabled = false :=
  claim6_descriptor_done_ready initClient rfl

/-- Claim C7: at any position whose record's declared length would overrun
the buffer end, both parsers stop and contribute nothing from that record
or the remaining bytes (the parse from that position yields no name and no
UUIDs).  Totality — both parsers return on every byte buffer without
raising — holds by construction: `extractNameFrom` and `extractUuidsFrom`
are total functions. -/
theorem claim7_overrun_safe (buf : List Nat) (i : Nat)
    (hover : buf.length ≤ i + buf.getD i 0) :
    extractNameFrom buf i = none ∧ extractUuidsFrom buf i = [] := by
  simp only [List.getD, List.get?_eq_getElem?] at hover
  constructor
  · rw [extractNameFrom]
    simp
    intro _ _ h3
    exact absurd h3 (Nat.not_lt.mpr hover)
  · rw [extractUuidsFrom]
    simp
    intro _ _ h3
    exact absurd h3 (Nat.not_lt.mpr hover)

/-- Witness for C7: the buffer `09 09 'A' 'B'` declares a 9-byte record in
a 4-byte buffer; nothing is parsed. -/
theorem claim7_witness :
    ([9, 9, 65, 66] : List Nat).length
        ≤ 0 + ([9, 9, 65, 66] : List Nat).getD 0 0 ∧
    extractNameFrom [9, 9, 65, 66] 0 = none ∧
    extractUuidsFrom [9, 9, 65, 66] 0 = [] :=
  ⟨by norm_num, claim7_overrun_safe [9, 9, 65, 66] 0 (by norm_num)⟩

/-- Claim C8 (counterexample): a disconnect event processed by the freshly
initialised client — no connection handle stored — is not a no-op: the
disconnection counter changes from 0 to 1. -/
theorem claim8_counterexample :
    (handle_disconnect false initClient).1.stats_disconnections = 1 ∧
    initClient.stats_disconnections = 0 ∧
    ¬ (handle_disconnect false initClient).1 = initClient := by
  decide

/-- Claim C8 (amended): processing a disconnect event with no stored
connection handle still runs the full disconnect path: the disconnection
counter is incremented, the connection handle stays unset, the discovery
handles and flags are (re)cleared, and — only when no target device is
remembered — the machine ends in Idle with no reconnection command issued.
(With a remembered target, auto-reconnect on and retry budget left, a
reconnection attempt is started exactly as for a real disconnection.) -/
theorem claim8_amended (c : Client) (t : Bool) (_h : c.conn_handle = none) :
    (handle_disconnect t c).1.stats_disconnections
        = c.stats_disconnections + 1 ∧
    (handle_disconnect t c).1.conn_handle = none ∧
    (handle_disconnect t c).1.char_handle = none ∧
    (handle_disconnect t c).1.service_discovered = false ∧
    (handle_disconnect t c).1.notifications_enabled = false ∧
    (c.target_device = none →
      (handle_disconnect t c).1.state = STATE_IDLE ∧
      (handle_disconnect t c).2 = []) := by
  cases htd : c.target_device with
  | none =>
    simp [handle_disconnect, reset_connection_state, htd,
          change_state_state, change_state_stats_disconnections,
          change_state_conn_handle, change_state_char_handle,
          change_state_target_device, change_state_auto_reconnect,
          change_state_retry_count, change_state_max_retries,
          change_state_service_discovered, change_state_notifications_enabled]
  | some d =>
    by_cases hg : (c.auto_reconnect
        && decide (c.retry_count < c.max_retries)) = true
    · simp [handle_disconnect, reset_connection_state, start_connection,
            htd, hg, change_state_state, change_state_stats_disconnections,
            change_state_conn_handle, change_state_char_handle,
            change_state_target_device, change_state_auto_reconnect,
            change_state_retry_count, change_state_max_retries,
            change_state_service_discovered,
            change_state_notifications_enabled]
      cases t <;>
        simp [change_state_stats_disconnections, change_state_conn_handle,
              change_state_char_handle, change_state_service_discovered,
              change_state_notifications_enabled]
    · simp [handle_disconnect, reset_connection_state, htd, hg,
            change_state_state, change_state_stats_disconnections,
            change_state_conn_handle, change_state_char_handle,
            change_state_target_device, change_state_auto_reconnect,
            change_state_retry_count, change_state_max_retries,
            change_state_service_discovered, change_state_notifications_enabled]

/-- Witness for C8 (amended) at the freshly initialised client. -/
theorem claim8_witness :
    (handle_disconnect false initClient).1.stats_disconnections
        = initClient.stats_disconnections + 1 ∧
    (handle_disconnect false initClient).1.conn_handle = none ∧
    (handle_disconnect false initClient).1.char_handle = none ∧
    (handle_disconnect false initClient).1.service_discovered = false ∧
    (handle_disconnect false initClient).1.notifications_enabled = false ∧
    (initClient.target_device = none →
      (handle_disconnect false initClient).1.state = STATE_IDLE ∧
      (handle_disconnect false initClient).2 = []) :=
  claim8_amended initClient false rfl

/-- Claim C9: starting from a zero error counter, the first 15 consecutive
handler exceptions only count (no recovery action is performed and the
counter reaches 15); the 16th — the first making the counter exceed 15 —
performs the full stack reset: state Idle, error counter back to 0, radio
cycled, IRQ callback reattached and a forced memory reclamation pass; the
cumulative `stats['errors']` records all 16 exceptions. -/
theorem claim9_error_ceiling_reset (c : Client) (h : c.error_count = 0) :
    (iterException 15 (c, [])).2 = [] ∧
    (iterException 15 (c, [])).1.error_count = 15 ∧
    (iterException 16 (c, [])).1.state = STATE_IDLE ∧
    (iterException 16 (c, [])).1.error_count = 0 ∧
    (iterException 16 (c, [])).2
      = [StackAction.radioOff, StackAction.radioOn, StackAction.attachIrq,
         StackAction.forceGc] ∧
    (iterException 16 (c, [])).1.stats_errors = c.stats_errors + 16 := by
  simp [iterException, ble_irq_exception, handle_critical_error, h,
        change_state_state, change_state_error_count,
        change_state_stats_errors]

/-- Witness for C9 at the freshly initialised client. -/
theorem claim9_witness :
    (iterException 15 (initClient, [])).2 = [] ∧
    (iterException 15 (initClient, [])).1.error_count = 15 ∧
    (iterException 16 (initClient, [])).1.state = STATE_IDLE ∧
    (iterException 16 (initClient, [])).1.error_count = 0 ∧
    (iterException 16 (initClient, [])).2
      = [StackAction.radioOff, StackAction.radioOn, StackAction.attachIrq,
         StackAction.forceGc] ∧
    (iterException 16 (initClient, [])).1.stats_errors
      = initClient.stats_errors + 16 :=
  claim9_error_ceiling_reset initClient rfl

/-- Claim C10: the two readiness checks disagree on a Ready client whose
characteristic value handle is `0` and whose connection handle is set:
`is_ready` returns true while `read_characteristic` rejects with "not
ready", because the read guard tests Python truthiness of the handle
rather than whether it is unset. -/
theorem claim10_is_ready_divergence :
    is_ready zeroHandleClient = true ∧
    read_characteristic zeroHandleClient = OpOutcome.notReady := by
  decide

end ESP32BLE
